import Mathlib

/-!
# The Python binding of remote references: `py_rref.cpp`

A shallow embedding of `torch/csrc/distributed/rpc/py_rref.cpp`: the wire
form of a fork descriptor (`rrefforkdata::toPyTuple`, `rrefforkdata::fromPyTuple`)
and the methods of `PyRRef` that read a value or cross a node boundary
(`owner`, `toHere`, `localValue`, `pickle`, `unpickle`).

Conventions of the embedding.

* A C++ exception is an `Except` error. The error records the statement that
  threw it: `TORCH_CHECK`, `TORCH_INTERNAL_ASSERT`, a pybind11 cast, a tuple
  index, or a function that is declared outside `py_rref.cpp`.
* `worker_id_t` and `local_id_t` are declared in `types.h`, which is not part
  of the file; they are a parameter `IdTypes` (two ranges of integers). A value
  of such a type is an integer inside the range, as in C++.
* A `std::string` that holds text (valid UTF-8) is the `String` of that text;
  the type string of a descriptor is such a string. A Python `str` is a list
  of code points, surrogates included; a Python `bytes` is given by the text
  its content encodes.
* A cast of a tuple element follows the casters of pybind11: an integral type
  takes a Python `int` (or `bool`) inside its range; `std::string` takes a
  Python `str` that UTF-8 can encode (one without a surrogate) or a `bytes`;
  anything else is a cast error. A `std::string` becomes the Python `str` of
  its text.
* The registry, the agent, the RPC handler and the reference classes are
  declared in other files; they are the fields of the parameter `Collab`.
  Every call of one that can change the node is recorded in a trace.
* The interpreter lock (`gil_scoped_acquire`) has no effect on a result and
  is not modelled.
-/

namespace Rpc

/-! ## Integers and Python values -/

/-- An integral C++ type: the least and the greatest value it holds. -/
structure CIntType where
  min : Int
  max : Int
deriving DecidableEq, Repr

/-- A value of the integral type `ty`. -/
abbrev CInt (ty : CIntType) : Type := { z : Int // ty.min ≤ z ∧ z ≤ ty.max }

/-- The identifier types that `types.h` declares. -/
structure IdTypes where
  worker_id_t : CIntType
  local_id_t : CIntType
deriving DecidableEq, Repr

/-- The C++ type `int16_t`. -/
def int16_t : CIntType := ⟨-32768, 32767⟩

/-- The C++ type `int64_t`. -/
def int64_t : CIntType := ⟨-9223372036854775808, 9223372036854775807⟩

/-- The identifier types of the library: a 16 bit worker id and a 64 bit
local id, both signed. -/
def torchIdTypes : IdTypes := ⟨int16_t, int64_t⟩

/-- A code point of a Python `str`: a Unicode scalar value, or one of the 2048
surrogates, `surrogate k` being the code point `0xD800 + k`. -/
inductive CodePoint where
  | scalar (c : Char)
  | surrogate (k : Fin 2048)
deriving DecidableEq, Repr

/-- A Python `str`: its code points. -/
abbrev PyStr : Type := List CodePoint

/-- The Python `str` of a text: what decoding the UTF-8 of `s` gives. -/
def PyStr.ofString (s : String) : PyStr := s.data.map CodePoint.scalar

/-- The scalar values of a Python `str`, when it has no surrogate. -/
def PyStr.scalars : PyStr → Option (List Char)
  | [] => some []
  | CodePoint.scalar c :: r => (PyStr.scalars r).map (fun cs => c :: cs)
  | CodePoint.surrogate _ :: _ => Option.none

/-- The text whose UTF-8 is the strict UTF-8 encoding of a Python `str`; the
encoding fails on a `str` that has a surrogate. -/
def PyStr.encode (p : PyStr) : Option String := (PyStr.scalars p).map String.mk

/-- A Python object, as far as a cast to an integer or to a string tells
objects apart: `bytes text` is the `bytes` object whose content is the UTF-8
of `text` (a `bytes` that is not valid UTF-8 would cast to a `std::string`
that is not text, which the type string of a descriptor never is); `obj` is
any object that is neither a number, nor a `str`, nor a `bytes`. -/
inductive PyObj where
  | none
  | bool (b : Bool)
  | int (z : Int)
  | float (bits : Nat)
  | str (s : PyStr)
  | bytes (text : String)
  | obj (id : Nat)
deriving DecidableEq, Repr

/-- A `py::tuple`. -/
abbrev PyTuple : Type := List PyObj

/-- An exception, by the statement that throws it. `E` is the type of the
exceptions thrown by the functions declared outside `py_rref.cpp`. -/
inductive Err (E : Type) where
  | torchCheck (msg : String)
  | internalAssert (msg : String)
  | castError
  | indexError
  | external (e : E)
deriving DecidableEq, Repr

deriving instance DecidableEq for Except

/-! ## The fork descriptor -/

/-- The type `RRefId`: the worker that minted the id and the counter value there. -/
structure RRefId (T : IdTypes) where
  createdOn_ : CInt T.worker_id_t
  localId_ : CInt T.local_id_t
deriving DecidableEq, Repr

/-- The type `ForkId` is the same type as `RRefId` (`fromPyTuple` builds it as one). -/
abbrev ForkId (T : IdTypes) : Type := RRefId T

/-- The class `RRefForkData`, in the order of its constructor's arguments. -/
structure RRefForkData (T : IdTypes) where
  ownerId_ : CInt T.worker_id_t
  rrefId_ : RRefId T
  forkId_ : ForkId T
  parent_ : CInt T.worker_id_t
  typeStr_ : String
deriving DecidableEq, Repr

/-! ## `namespace rrefforkdata` -/

namespace rrefforkdata

def OWNER_IDX : Nat := 0
def RREFID_ON_IDX : Nat := 1
def RREFID_ID_IDX : Nat := 2
def FORKID_ON_IDX : Nat := 3
def FORKID_ID_IDX : Nat := 4
def PARENT_IDX : Nat := 5
def TYPE_IDX : Nat := 6
def RFD_TUPLE_SIZE : Nat := 7

/-- The message of the assertion in `fromPyTuple`, as the source writes it. -/
def malformedMsg : String := "Pickled RRefForkData must contain 6 numbers."

/-- The error of the size assertion in `fromPyTuple`. -/
def malformedForkData {E : Type} : Err E := Err.internalAssert malformedMsg

/-- The access `pyTuple[i]`: the element at `i`, an index error outside the tuple. -/
def getItem {E : Type} (pyTuple : PyTuple) (i : Nat) : Except (Err E) PyObj :=
  match pyTuple.get? i with
  | some x => Except.ok x
  | Option.none => Except.error Err.indexError

/-- The integer a Python object casts to, when it is an `int` or a `bool`. -/
def asLong : PyObj → Option Int
  | PyObj.int z => some z
  | PyObj.bool b => some (if b then 1 else 0)
  | _ => Option.none

/-- The cast `o.cast<T>()` for an integral `T`: the integer of an `int` (or `bool`)
inside the range of `T`; any other object, or an integer outside the range,
is a cast error. -/
def castInt {E : Type} (ty : CIntType) (o : PyObj) : Except (Err E) (CInt ty) :=
  match asLong o with
  | some z => if h : ty.min ≤ z ∧ z ≤ ty.max then Except.ok ⟨z, h⟩ else Except.error Err.castError
  | Option.none => Except.error Err.castError

/-- The cast `o.cast<std::string>()`: the UTF-8 encoding of a `str`, a cast
error when the `str` has a surrogate and cannot be encoded; the content of a
`bytes`; a cast error for any other object. -/
def castString {E : Type} : PyObj → Except (Err E) String
  | PyObj.str p =>
    match PyStr.encode p with
    | some s => Except.ok s
    | Option.none => Except.error Err.castError
  | PyObj.bytes text => Except.ok text
  | _ => Except.error Err.castError

/-- The function `rrefforkdata::toPyTuple`: the seven fields, in the order of
the arguments of `py::make_tuple`; an integer becomes a Python `int`, the type
string the Python `str` of its text. -/
def toPyTuple {T : IdTypes} (forkData : RRefForkData T) : PyTuple :=
  [ PyObj.int forkData.ownerId_.val,
    PyObj.int forkData.rrefId_.createdOn_.val,
    PyObj.int forkData.rrefId_.localId_.val,
    PyObj.int forkData.forkId_.createdOn_.val,
    PyObj.int forkData.forkId_.localId_.val,
    PyObj.int forkData.parent_.val,
    PyObj.str (PyStr.ofString forkData.typeStr_) ]

/-- The function `rrefforkdata::fromPyTuple`: the size assertion, then the
seven casts, then the constructor. The two casts inside a constructor call of
`RRefId` are written here from left to right; C++ leaves their order open, and
the result does not depend on it, since both fail with the same cast error. -/
def fromPyTuple {E : Type} (T : IdTypes) (pyTuple : PyTuple) : Except (Err E) (RRefForkData T) :=
  if pyTuple.length = RFD_TUPLE_SIZE then do
    let ownerId ← (getItem pyTuple OWNER_IDX) >>= castInt T.worker_id_t
    let rrefOn ← (getItem pyTuple RREFID_ON_IDX) >>= castInt T.worker_id_t
    let rrefLocal ← (getItem pyTuple RREFID_ID_IDX) >>= castInt T.local_id_t
    let rrefId : RRefId T := ⟨rrefOn, rrefLocal⟩
    let forkOn ← (getItem pyTuple FORKID_ON_IDX) >>= castInt T.worker_id_t
    let forkLocal ← (getItem pyTuple FORKID_ID_IDX) >>= castInt T.local_id_t
    let forkId : RRefId T := ⟨forkOn, forkLocal⟩
    let parent ← (getItem pyTuple PARENT_IDX) >>= castInt T.worker_id_t
    let typeStr ← (getItem pyTuple TYPE_IDX) >>= castString
    pure ⟨ownerId, rrefId, forkId, parent, typeStr⟩
  else
    Except.error malformedForkData

end rrefforkdata

open rrefforkdata

/-! ## The collaborators of `PyRRef` -/

/-- The class `WorkerInfo` of `rpc_agent.h`. -/
structure WorkerInfo (T : IdTypes) where
  name_ : String
  id_ : CInt T.worker_id_t
deriving DecidableEq, Repr

/-- A call of a function declared outside `py_rref.cpp`, with its arguments.
`R` is the class `RRef`, `Ty` is `TypePtr`. -/
inductive Event (T : IdTypes) (R Ty : Type) where
  | toHere (rref : R)
  | getValue (rref : R)
  | handleException (value : PyObj)
  | parseTypeFromStr (typeStr : String)
  | getOrCreateRRef (forkData : RRefForkData T) (type : Ty)
  | notifyOwnerAndParentOfFork (forkId : ForkId T) (parent : CInt T.worker_id_t) (rref : Option R)
  | prepareChildFork (rref : R)
deriving DecidableEq, Repr

/-- The node: the state `σ` behind `RRefContext::getInstance()` and
`PythonRpcHandler::getInstance()`, and the calls made so far. -/
structure World (T : IdTypes) (σ R Ty : Type) where
  state : σ
  trace : List (Event T R Ty)
deriving DecidableEq, Repr

/-- The functions `py_rref.cpp` calls and does not define. `σ` is the state of
the node, `E` their exceptions, `V` is `IValue`, `R` is `RRef`, `Ty` is
`TypePtr`; a `shared_ptr<RRef>` that may be null is an `Option R`.
The three virtual getters of `RRef`, the lookup of the agent and the
conversion `jit::toPyObject` return without an exception; the others may
throw and may change the node. -/
structure Collab (T : IdTypes) (σ E V R Ty : Type) where
  isOwner : R → Bool
  isPyObj : R → Bool
  owner : R → CInt T.worker_id_t
  getWorkerInfo : σ → CInt T.worker_id_t → WorkerInfo T
  userToHere : R → σ → Except E V × σ
  getValue : R → σ → Except E V × σ
  toPyObject : V → PyObj
  handleException : PyObj → σ → Except E Unit × σ
  parseTypeFromStr : String → σ → Except E Ty × σ
  getOrCreateRRef : RRefForkData T → Ty → σ → Except E (Option R) × σ
  notifyOwnerAndParentOfFork : ForkId T → CInt T.worker_id_t → Option R → σ → Except E Unit × σ
  prepareChildFork : R → σ → Except E (RRefForkData T) × σ

/-- A computation on the node: it returns or throws, and leaves a node. -/
def Run (W E α : Type) : Type := W → Except (Err E) α × W

/-- Sequencing: an exception ends the computation with the node as it is. -/
def Run.bind {W E α β : Type} (x : Run W E α) (f : α → Run W E β) : Run W E β :=
  fun w =>
    match x w with
    | (Except.ok a, w1) => f a w1
    | (Except.error e, w1) => (Except.error e, w1)

instance {W E : Type} : Monad (Run W E) where
  pure a := fun w => (Except.ok a, w)
  bind := Run.bind

/-- A computation that has no effect on the node. -/
def liftExcept {W E α : Type} (x : Except (Err E) α) : Run W E α :=
  fun w => (x, w)

/-- A call of a collaborator: the call is recorded, the collaborator runs on
the state, and its exception, if any, goes to the caller as it is. -/
def call {T : IdTypes} {σ E R Ty α : Type} (ev : Event T R Ty) (f : σ → Except E α × σ) :
    Run (World T σ R Ty) E α :=
  fun w =>
    match f w.state with
    | (Except.ok a, s) => (Except.ok a, ⟨s, w.trace ++ [ev]⟩)
    | (Except.error e, s) => (Except.error (Err.external e), ⟨s, w.trace ++ [ev]⟩)

/-! ## `PyRRef` -/

/-- The class `PyRRef`: its one member `rref_`, never null. -/
structure PyRRef (R : Type) where
  rref_ : R
deriving DecidableEq, Repr

namespace PyRRef

variable {T : IdTypes} {σ E V R Ty : Type}

/-- The message of the check in the constructor. -/
def nullMsg : String := "PyRRef must not wrap nullptr"

/-- The constructor `PyRRef::PyRRef(std::shared_ptr<RRef>)`. -/
def new (rref : Option R) : Except (Err E) (PyRRef R) :=
  match rref with
  | some r => Except.ok ⟨r⟩
  | Option.none => Except.error (Err.torchCheck nullMsg)

/-- The fixed text of the check in `localValue`. -/
def notLocalText : String := "Cannot call localValue() on a non-local reference. Call it on "

/-- The method `PyRRef::isOwner`. -/
def isOwner (c : Collab T σ E V R Ty) (self : PyRRef R) : Bool :=
  c.isOwner self.rref_

/-- The method `PyRRef::owner`: the agent's worker info for `rref_->owner()`. -/
def owner (c : Collab T σ E V R Ty) (self : PyRRef R) (w : World T σ R Ty) : WorkerInfo T :=
  c.getWorkerInfo w.state (c.owner self.rref_)

/-- The method `PyRRef::localValue`. The message of `TORCH_CHECK` is built
only when the check fails. -/
def localValue (c : Collab T σ E V R Ty) (self : PyRRef R) : Run (World T σ R Ty) E PyObj :=
  fun w =>
    if c.isOwner self.rref_ then
      if c.isPyObj self.rref_ then
        (do
          let v ← call (Event.getValue self.rref_) (c.getValue self.rref_)
          let value := c.toPyObject v
          call (Event.handleException value) (c.handleException value)
          pure value : Run (World T σ R Ty) E PyObj) w
      else
        (do
          let value ← call (Event.getValue self.rref_) (c.getValue self.rref_)
          pure (c.toPyObject value) : Run (World T σ R Ty) E PyObj) w
    else
      (Except.error (Err.torchCheck (notLocalText ++ (owner c self w).name_)), w)

/-- The method `PyRRef::toHere`. -/
def toHere (c : Collab T σ E V R Ty) (self : PyRRef R) : Run (World T σ R Ty) E PyObj :=
  if c.isOwner self.rref_ then
    localValue c self
  else
    if c.isPyObj self.rref_ then do
      let v ← call (Event.toHere self.rref_) (c.userToHere self.rref_)
      pure (c.toPyObject v)
    else do
      let value ← call (Event.toHere self.rref_) (c.userToHere self.rref_)
      pure (c.toPyObject value)

/-- The method `PyRRef::pickle`. -/
def pickle (c : Collab T σ E V R Ty) (self : PyRRef R) : Run (World T σ R Ty) E PyTuple := do
  let rrefForkData ← call (Event.prepareChildFork self.rref_) (c.prepareChildFork self.rref_)
  pure (toPyTuple rrefForkData)

/-- The method `PyRRef::unpickle`. -/
def unpickle (c : Collab T σ E V R Ty) (pyTuple : PyTuple) : Run (World T σ R Ty) E (PyRRef R) := do
  let rrefForkData ← liftExcept (fromPyTuple T pyTuple)
  let rrefType ← call (Event.parseTypeFromStr rrefForkData.typeStr_)
    (c.parseTypeFromStr rrefForkData.typeStr_)
  let rref ← call (Event.getOrCreateRRef rrefForkData rrefType)
    (c.getOrCreateRRef rrefForkData rrefType)
  call (Event.notifyOwnerAndParentOfFork rrefForkData.forkId_ rrefForkData.parent_ rref)
    (c.notifyOwnerAndParentOfFork rrefForkData.forkId_ rrefForkData.parent_ rref)
  liftExcept (new rref)

end PyRRef

/-- The number of remote fetches (`UserRRef::toHere`) in a trace. -/
def fetches {T : IdTypes} {R Ty : Type} : List (Event T R Ty) → Nat
  | [] => 0
  | Event.toHere _ :: es => fetches es + 1
  | _ :: es => fetches es

/-- The number of local reads (`OwnerRRef::getValue`) in a trace. -/
def localReads {T : IdTypes} {R Ty : Type} : List (Event T R Ty) → Nat
  | [] => 0
  | Event.getValue _ :: es => localReads es + 1
  | _ :: es => localReads es

/-! ## A node of a cluster of two workers, for the examples

Worker 0 owns a value; the node of the examples is worker 1. -/

/-- A reference of the example node: its kind, its type flag, its owner. -/
structure DemoRRef where
  isOwner : Bool
  isPyObj : Bool
  ownerId : CInt torchIdTypes.worker_id_t
deriving DecidableEq, Repr

/-- The state of the example node: its worker id, whether the owner answers a
fetch, the references of its registry, the confirmations it has sent. -/
structure DemoNode where
  localWorker : Int
  reachable : Bool
  rrefs : List DemoRRef
  confirmed : List (ForkId torchIdTypes × CInt torchIdTypes.worker_id_t)
deriving DecidableEq, Repr

/-- Worker 0. -/
def worker0 : CInt torchIdTypes.worker_id_t := ⟨0, by decide⟩

/-- Worker 1. -/
def worker1 : CInt torchIdTypes.worker_id_t := ⟨1, by decide⟩

/-- The descriptor of a fork, made on worker 1, of reference 1 of worker 0. -/
def demoForkData : RRefForkData torchIdTypes :=
  ⟨worker0, ⟨worker0, ⟨1, by decide⟩⟩, ⟨worker1, ⟨1, by decide⟩⟩, worker0, "Tensor"⟩

/-- A descriptor whose six integers differ from one another. -/
def demoDistinct : RRefForkData torchIdTypes :=
  ⟨⟨10, by decide⟩, ⟨⟨11, by decide⟩, ⟨12, by decide⟩⟩, ⟨⟨13, by decide⟩, ⟨14, by decide⟩⟩,
    ⟨15, by decide⟩, "Tensor"⟩

/-- The tuple of the example descriptor with a lone surrogate, the code point
`0xD800`, as its string. -/
def demoSurrogate : PyTuple :=
  [PyObj.int 0, PyObj.int 0, PyObj.int 1, PyObj.int 1, PyObj.int 1, PyObj.int 0,
    PyObj.str [CodePoint.surrogate 0]]

/-- The collaborators of the example node. A fetch returns the value when the
owner is reachable and throws otherwise; the registry keeps the references it
creates and the confirmations it sends. -/
def demoCollab : Collab torchIdTypes DemoNode String String DemoRRef String where
  isOwner r := r.isOwner
  isPyObj r := r.isPyObj
  owner r := r.ownerId
  getWorkerInfo _ id := ⟨if id.val = 0 then "worker0" else "worker1", id⟩
  userToHere _ s :=
    if s.reachable then (Except.ok "hello", s) else (Except.error "transport failure", s)
  getValue _ s := (Except.ok "hello", s)
  toPyObject v := PyObj.str (PyStr.ofString v)
  handleException _ s := (Except.ok (), s)
  parseTypeFromStr typeStr s := (Except.ok typeStr, s)
  getOrCreateRRef forkData type s :=
    (Except.ok (some ⟨decide (forkData.ownerId_.val = s.localWorker), decide (type = "PyObject"),
        forkData.ownerId_⟩),
      { s with rrefs := ⟨decide (forkData.ownerId_.val = s.localWorker), decide (type = "PyObject"),
        forkData.ownerId_⟩ :: s.rrefs })
  notifyOwnerAndParentOfFork forkId parent _ s :=
    (Except.ok (), { s with confirmed := (forkId, parent) :: s.confirmed })
  prepareChildFork r s :=
    (Except.ok ⟨r.ownerId, ⟨r.ownerId, ⟨1, by decide⟩⟩, ⟨worker1, ⟨1, by decide⟩⟩, worker0, "Tensor"⟩, s)

/-- A user reference on worker 1 to the value of worker 0. -/
def demoUser : PyRRef DemoRRef := ⟨⟨false, false, worker0⟩⟩

/-- An owner reference on worker 1. -/
def demoOwner : PyRRef DemoRRef := ⟨⟨true, true, worker1⟩⟩

/-- Worker 1 with an empty registry, the owner reachable. -/
def demoUp : World torchIdTypes DemoNode DemoRRef String := ⟨⟨1, true, [], []⟩, []⟩

/-- Worker 1 with an empty registry, the owner unreachable. -/
def demoDown : World torchIdTypes DemoNode DemoRRef String := ⟨⟨1, false, [], []⟩, []⟩

/-! ## Lemmas on the wire form -/

section wire

variable {E : Type} {T : IdTypes}

theorem castInt_int {ty : CIntType} (z : Int) (h : ty.min ≤ z ∧ z ≤ ty.max) :
    (castInt ty (PyObj.int z) : Except (Err E) (CInt ty)) = Except.ok ⟨z, h⟩ := by
  simp [castInt, asLong, h]

theorem castInt_int_above {ty : CIntType} (z : Int) (h : ty.max < z) :
    (castInt ty (PyObj.int z) : Except (Err E) (CInt ty)) = Except.error Err.castError := by
  have h2 : ¬ (ty.min ≤ z ∧ z ≤ ty.max) := fun hz => absurd hz.2 (not_le.mpr h)
  simp [castInt, asLong, h2]

theorem scalars_map_scalar (cs : List Char) :
    PyStr.scalars (cs.map CodePoint.scalar) = some cs := by
  induction cs with
  | nil => rfl
  | cons c r ih => simp [PyStr.scalars, ih]

theorem scalars_eq_some (p : PyStr) (cs : List Char) (h : PyStr.scalars p = some cs) :
    cs.map CodePoint.scalar = p := by
  induction p generalizing cs with
  | nil =>
    simp [PyStr.scalars] at h
    subst h
    rfl
  | cons x r ih =>
    cases x with
    | surrogate k => simp [PyStr.scalars] at h
    | scalar c =>
      simp only [PyStr.scalars, Option.map_eq_some'] at h
      obtain ⟨cs1, h1, h2⟩ := h
      subst h2
      simp [ih cs1 h1]

/-- The text of a `str` made from a text is that text. -/
theorem encode_ofString (s : String) : PyStr.encode (PyStr.ofString s) = some s := by
  simp [PyStr.encode, PyStr.ofString, scalars_map_scalar]

/-- A `str` that encodes to a text is the `str` of that text. -/
theorem ofString_of_encode (p : PyStr) (s : String) (h : PyStr.encode p = some s) :
    PyStr.ofString s = p := by
  simp only [PyStr.encode, Option.map_eq_some'] at h
  obtain ⟨cs, h1, h2⟩ := h
  subst h2
  exact scalars_eq_some p cs h1

/-- A `str` with a surrogate does not encode. -/
theorem encode_surrogate (k : Fin 2048) (p : PyStr) :
    PyStr.encode (CodePoint.surrogate k :: p) = Option.none := by
  simp [PyStr.encode, PyStr.scalars]

theorem castString_ofString (s : String) :
    (castString (PyObj.str (PyStr.ofString s)) : Except (Err E) String) = Except.ok s := by
  simp [castString, encode_ofString]

theorem castString_of_encode (p : PyStr) (s : String) (h : PyStr.encode p = some s) :
    (castString (PyObj.str p) : Except (Err E) String) = Except.ok s := by
  simp [castString, h]

theorem castInt_of_asLong {ty : CIntType} (x : PyObj) (z : Int) (hx : asLong x = some z)
    (h : ty.min ≤ z ∧ z ≤ ty.max) :
    (castInt ty x : Except (Err E) (CInt ty)) = Except.ok ⟨z, h⟩ := by
  simp [castInt, hx, h]

theorem castInt_val {ty : CIntType} (z : CInt ty) :
    (castInt ty (PyObj.int z.val) : Except (Err E) (CInt ty)) = Except.ok z :=
  castInt_int z.val z.property

/-- A tuple of seven elements decodes to what the seven casts give. -/
theorem fromPyTuple_seven (x0 x1 x2 x3 x4 x5 x6 : PyObj) :
    (fromPyTuple T [x0, x1, x2, x3, x4, x5, x6] : Except (Err E) (RRefForkData T)) =
      (castInt T.worker_id_t x0 >>= fun ownerId =>
       castInt T.worker_id_t x1 >>= fun rrefOn =>
       castInt T.local_id_t x2 >>= fun rrefLocal =>
       castInt T.worker_id_t x3 >>= fun forkOn =>
       castInt T.local_id_t x4 >>= fun forkLocal =>
       castInt T.worker_id_t x5 >>= fun parent =>
       castString x6 >>= fun typeStr =>
       pure ⟨ownerId, ⟨rrefOn, rrefLocal⟩, ⟨forkOn, forkLocal⟩, parent, typeStr⟩) := by
  simp [fromPyTuple, getItem, RFD_TUPLE_SIZE, OWNER_IDX, RREFID_ON_IDX, RREFID_ID_IDX,
    FORKID_ON_IDX, FORKID_ID_IDX, PARENT_IDX, TYPE_IDX, bind, Except.bind]

/-- A tuple of seven elements that cast decodes to the descriptor of the seven
values, each field from the element at its index. -/
theorem fromPyTuple_of_casts (x0 x1 x2 x3 x4 x5 x6 : PyObj) (v0 v1 : CInt T.worker_id_t)
    (v2 : CInt T.local_id_t) (v3 : CInt T.worker_id_t) (v4 : CInt T.local_id_t)
    (v5 : CInt T.worker_id_t) (v6 : String)
    (h0 : (castInt T.worker_id_t x0 : Except (Err E) _) = Except.ok v0)
    (h1 : (castInt T.worker_id_t x1 : Except (Err E) _) = Except.ok v1)
    (h2 : (castInt T.local_id_t x2 : Except (Err E) _) = Except.ok v2)
    (h3 : (castInt T.worker_id_t x3 : Except (Err E) _) = Except.ok v3)
    (h4 : (castInt T.local_id_t x4 : Except (Err E) _) = Except.ok v4)
    (h5 : (castInt T.worker_id_t x5 : Except (Err E) _) = Except.ok v5)
    (h6 : (castString x6 : Except (Err E) _) = Except.ok v6) :
    (fromPyTuple T [x0, x1, x2, x3, x4, x5, x6] : Except (Err E) (RRefForkData T)) =
      Except.ok ⟨v0, ⟨v1, v2⟩, ⟨v3, v4⟩, v5, v6⟩ := by
  rw [fromPyTuple_seven, h0, h1, h2, h3, h4, h5, h6]
  rfl

/-- A tuple that decodes has seven elements, and each field of the descriptor
is the cast of the element at the field's index. -/
theorem fromPyTuple_ok_inv (t : PyTuple) (d : RRefForkData T)
    (h : (fromPyTuple T t : Except (Err E) (RRefForkData T)) = Except.ok d) :
    ∃ x0 x1 x2 x3 x4 x5 x6, t = [x0, x1, x2, x3, x4, x5, x6] ∧
      (castInt T.worker_id_t x0 : Except (Err E) _) = Except.ok d.ownerId_ ∧
      (castInt T.worker_id_t x1 : Except (Err E) _) = Except.ok d.rrefId_.createdOn_ ∧
      (castInt T.local_id_t x2 : Except (Err E) _) = Except.ok d.rrefId_.localId_ ∧
      (castInt T.worker_id_t x3 : Except (Err E) _) = Except.ok d.forkId_.createdOn_ ∧
      (castInt T.local_id_t x4 : Except (Err E) _) = Except.ok d.forkId_.localId_ ∧
      (castInt T.worker_id_t x5 : Except (Err E) _) = Except.ok d.parent_ ∧
      (castString x6 : Except (Err E) _) = Except.ok d.typeStr_ := by
  by_cases hl : t.length = 7
  · match t, hl with
    | [x0, x1, x2, x3, x4, x5, x6], _ =>
      refine ⟨x0, x1, x2, x3, x4, x5, x6, rfl, ?_⟩
      rw [fromPyTuple_seven] at h
      cases h0 : (castInt T.worker_id_t x0 : Except (Err E) _) <;> rw [h0] at h <;>
        simp only [bind, Except.bind] at h
      · cases h
      cases h1 : (castInt T.worker_id_t x1 : Except (Err E) _) <;> rw [h1] at h <;>
        simp only [bind, Except.bind] at h
      · cases h
      cases h2 : (castInt T.local_id_t x2 : Except (Err E) _) <;> rw [h2] at h <;>
        simp only [bind, Except.bind] at h
      · cases h
      cases h3 : (castInt T.worker_id_t x3 : Except (Err E) _) <;> rw [h3] at h <;>
        simp only [bind, Except.bind] at h
      · cases h
      cases h4 : (castInt T.local_id_t x4 : Except (Err E) _) <;> rw [h4] at h <;>
        simp only [bind, Except.bind] at h
      · cases h
      cases h5 : (castInt T.worker_id_t x5 : Except (Err E) _) <;> rw [h5] at h <;>
        simp only [bind, Except.bind] at h
      · cases h
      cases h6 : (castString x6 : Except (Err E) _) <;> rw [h6] at h <;>
        simp only [bind, Except.bind, pure, Except.pure] at h
      · cases h
      cases h
      exact ⟨rfl, rfl, rfl, rfl, rfl, rfl, rfl⟩
  · simp [fromPyTuple, RFD_TUPLE_SIZE, hl, malformedForkData] at h

end wire

/-! ## The wire form of the fork descriptor -/

section wireClaims

variable {E : Type} {T : IdTypes}

/-- C1. Round trip of the fork descriptor: decoding the tuple that encodes a
descriptor `d` succeeds and gives `d` back, that is, a descriptor with the
same `ownerId_`, `rrefId_.createdOn_`, `rrefId_.localId_`, `forkId_.createdOn_`,
`forkId_.localId_`, `parent_` and `typeStr_`. In particular, a tuple that
`PyRRef::pickle` returns is the encoding of the descriptor that
`prepareChildFork` returned in that call, and decodes to it. -/
theorem fromPyTuple_toPyTuple {σ V R Ty : Type} (d : RRefForkData T)
    (c : Collab T σ E V R Ty) (self : PyRRef R) (w : World T σ R Ty) :
    (fromPyTuple T (toPyTuple d) : Except (Err E) (RRefForkData T)) = Except.ok d ∧
    ∀ (t : PyTuple) (w1 : World T σ R Ty), PyRRef.pickle c self w = (Except.ok t, w1) →
      ∃ d1 : RRefForkData T,
        c.prepareChildFork self.rref_ w.state = (Except.ok d1, w1.state) ∧
        t = toPyTuple d1 ∧
        (fromPyTuple T t : Except (Err E) (RRefForkData T)) = Except.ok d1 := by
  have rt : ∀ d : RRefForkData T,
      (fromPyTuple T (toPyTuple d) : Except (Err E) (RRefForkData T)) = Except.ok d := by
    intro d
    simp only [toPyTuple]
    rw [fromPyTuple_seven]
    simp only [castInt_val, castString_ofString, bind, Except.bind, pure, Except.pure]
  refine ⟨rt d, ?_⟩
  intro t w1 h
  simp only [PyRRef.pickle, bind, Run.bind, call, pure] at h
  cases hp : c.prepareChildFork self.rref_ w.state with
  | mk res s =>
    rw [hp] at h
    cases res with
    | error e => simp at h
    | ok d1 =>
      simp only [Prod.mk.injEq, Except.ok.injEq] at h
      obtain ⟨ht, hw⟩ := h
      subst ht
      subst hw
      exact ⟨d1, rfl, rfl, rt d1⟩

/-- C2. Wire layout: the tuple that encodes `d` has exactly seven elements,
which are, from position 0 to position 6, `ownerId_`, `rrefId_.createdOn_`,
`rrefId_.localId_`, `forkId_.createdOn_`, `forkId_.localId_`, `parent_` (Python
integers) and `typeStr_` (a Python string); the index constants are 0 to 6 in
that order and the size constant is 7; and `fromPyTuple` reads each field from
that same position: when the seven elements of a tuple cast to `v0`, ..., `v6`,
the tuple decodes to the descriptor whose `ownerId_` is `v0`, whose `rrefId_`
is `(v1, v2)`, whose `forkId_` is `(v3, v4)`, whose `parent_` is `v5` and whose
`typeStr_` is `v6`; and conversely a tuple that decodes to a descriptor has
seven elements, each field of the descriptor being the cast of the element at
that same position. -/
theorem toPyTuple_layout (d : RRefForkData T) :
    (toPyTuple d).length = 7 ∧
    (toPyTuple d).get? OWNER_IDX = some (PyObj.int d.ownerId_.val) ∧
    (toPyTuple d).get? RREFID_ON_IDX = some (PyObj.int d.rrefId_.createdOn_.val) ∧
    (toPyTuple d).get? RREFID_ID_IDX = some (PyObj.int d.rrefId_.localId_.val) ∧
    (toPyTuple d).get? FORKID_ON_IDX = some (PyObj.int d.forkId_.createdOn_.val) ∧
    (toPyTuple d).get? FORKID_ID_IDX = some (PyObj.int d.forkId_.localId_.val) ∧
    (toPyTuple d).get? PARENT_IDX = some (PyObj.int d.parent_.val) ∧
    (toPyTuple d).get? TYPE_IDX = some (PyObj.str (PyStr.ofString d.typeStr_)) ∧
    [OWNER_IDX, RREFID_ON_IDX, RREFID_ID_IDX, FORKID_ON_IDX, FORKID_ID_IDX, PARENT_IDX,
      TYPE_IDX] = [0, 1, 2, 3, 4, 5, 6] ∧
    RFD_TUPLE_SIZE = 7 ∧
    (∀ (x0 x1 x2 x3 x4 x5 x6 : PyObj) (v0 v1 : CInt T.worker_id_t) (v2 : CInt T.local_id_t)
      (v3 : CInt T.worker_id_t) (v4 : CInt T.local_id_t) (v5 : CInt T.worker_id_t) (v6 : String),
      (castInt T.worker_id_t x0 : Except (Err E) _) = Except.ok v0 →
      (castInt T.worker_id_t x1 : Except (Err E) _) = Except.ok v1 →
      (castInt T.local_id_t x2 : Except (Err E) _) = Except.ok v2 →
      (castInt T.worker_id_t x3 : Except (Err E) _) = Except.ok v3 →
      (castInt T.local_id_t x4 : Except (Err E) _) = Except.ok v4 →
      (castInt T.worker_id_t x5 : Except (Err E) _) = Except.ok v5 →
      (castString x6 : Except (Err E) _) = Except.ok v6 →
      (fromPyTuple T [x0, x1, x2, x3, x4, x5, x6] : Except (Err E) (RRefForkData T)) =
        Except.ok ⟨v0, ⟨v1, v2⟩, ⟨v3, v4⟩, v5, v6⟩) ∧
    ∀ (t : PyTuple) (d1 : RRefForkData T),
      (fromPyTuple T t : Except (Err E) (RRefForkData T)) = Except.ok d1 →
      ∃ x0 x1 x2 x3 x4 x5 x6, t = [x0, x1, x2, x3, x4, x5, x6] ∧
        (castInt T.worker_id_t x0 : Except (Err E) _) = Except.ok d1.ownerId_ ∧
        (castInt T.worker_id_t x1 : Except (Err E) _) = Except.ok d1.rrefId_.createdOn_ ∧
        (castInt T.local_id_t x2 : Except (Err E) _) = Except.ok d1.rrefId_.localId_ ∧
        (castInt T.worker_id_t x3 : Except (Err E) _) = Except.ok d1.forkId_.createdOn_ ∧
        (castInt T.local_id_t x4 : Except (Err E) _) = Except.ok d1.forkId_.localId_ ∧
        (castInt T.worker_id_t x5 : Except (Err E) _) = Except.ok d1.parent_ ∧
        (castString x6 : Except (Err E) _) = Except.ok d1.typeStr_ :=
  ⟨rfl, rfl, rfl, rfl, rfl, rfl, rfl, rfl, rfl, rfl,
    fun x0 x1 x2 x3 x4 x5 x6 v0 v1 v2 v3 v4 v5 v6 h0 h1 h2 h3 h4 h5 h6 =>
      fromPyTuple_of_casts x0 x1 x2 x3 x4 x5 x6 v0 v1 v2 v3 v4 v5 v6 h0 h1 h2 h3 h4 h5 h6,
    fun t d1 h => fromPyTuple_ok_inv t d1 h⟩

/-- C3. Malformed wire data: a tuple whose length is not 7 does not decode;
`fromPyTuple` fails with the error of its size assertion, whatever the
elements of the tuple are (the assertion comes before the first element is
read, so neither a cast error nor an index error can take its place), and so
returns no descriptor. -/
theorem fromPyTuple_malformed (t : PyTuple) (h : t.length ≠ 7) :
    (fromPyTuple T t : Except (Err E) (RRefForkData T)) =
      Except.error (Err.internalAssert "Pickled RRefForkData must contain 6 numbers.") ∧
    ∀ d : RRefForkData T, (fromPyTuple T t : Except (Err E) (RRefForkData T)) ≠ Except.ok d := by
  have h1 : (fromPyTuple T t : Except (Err E) (RRefForkData T)) =
      Except.error (Err.internalAssert "Pickled RRefForkData must contain 6 numbers.") := by
    simp [fromPyTuple, RFD_TUPLE_SIZE, h, malformedForkData, malformedMsg]
  refine ⟨h1, ?_⟩
  intro d hd
  rw [h1] at hd
  cases hd

/-- C9, as amended. Decoding a well-typed tuple: a tuple of seven elements
whose elements 0, 1, 3 and 5 are integers in the range of `worker_id_t`, whose
elements 2 and 4 are integers in the range of `local_id_t` and whose element 6
is a string that UTF-8 can encode (a string without a surrogate) decodes, and
the descriptor it decodes to encodes to the tuple with the same integers and
the same string: to the tuple itself when its integers are Python `int`
objects, and to the tuple with 0 or 1 in the place of a `bool`. A tuple of
seven elements that is not so typed can fail to decode although its length is
right: with an element 6 that is not a string, with an element 6 that is a
string UTF-8 cannot encode, or with an integer above the range of
`worker_id_t` as element 0, `fromPyTuple` fails with a cast error, which is
not the error of the size assertion. -/
theorem toPyTuple_fromPyTuple (x0 x1 x2 x3 x4 x5 : PyObj) (a0 a1 a2 a3 a4 a5 : Int)
    (p : PyStr) (s : String)
    (hx0 : asLong x0 = some a0) (hx1 : asLong x1 = some a1) (hx2 : asLong x2 = some a2)
    (hx3 : asLong x3 = some a3) (hx4 : asLong x4 = some a4) (hx5 : asLong x5 = some a5)
    (h0 : T.worker_id_t.min ≤ a0 ∧ a0 ≤ T.worker_id_t.max)
    (h1 : T.worker_id_t.min ≤ a1 ∧ a1 ≤ T.worker_id_t.max)
    (h2 : T.local_id_t.min ≤ a2 ∧ a2 ≤ T.local_id_t.max)
    (h3 : T.worker_id_t.min ≤ a3 ∧ a3 ≤ T.worker_id_t.max)
    (h4 : T.local_id_t.min ≤ a4 ∧ a4 ≤ T.local_id_t.max)
    (h5 : T.worker_id_t.min ≤ a5 ∧ a5 ≤ T.worker_id_t.max)
    (hp : PyStr.encode p = some s) :
    (∃ d : RRefForkData T,
      (fromPyTuple T [x0, x1, x2, x3, x4, x5, PyObj.str p] :
        Except (Err E) (RRefForkData T)) = Except.ok d ∧
      toPyTuple d = [PyObj.int a0, PyObj.int a1, PyObj.int a2, PyObj.int a3, PyObj.int a4,
        PyObj.int a5, PyObj.str p]) ∧
    (∃ d : RRefForkData T,
      (fromPyTuple T [PyObj.int a0, PyObj.int a1, PyObj.int a2, PyObj.int a3, PyObj.int a4,
        PyObj.int a5, PyObj.str p] : Except (Err E) (RRefForkData T)) = Except.ok d ∧
      toPyTuple d = [PyObj.int a0, PyObj.int a1, PyObj.int a2, PyObj.int a3, PyObj.int a4,
        PyObj.int a5, PyObj.str p]) ∧
    (fromPyTuple T [PyObj.int a0, PyObj.int a1, PyObj.int a2, PyObj.int a3, PyObj.int a4,
        PyObj.int a5, PyObj.int a0] : Except (Err E) (RRefForkData T)) =
      Except.error Err.castError ∧
    (∀ q : PyStr, PyStr.encode q = Option.none →
      (fromPyTuple T [PyObj.int a0, PyObj.int a1, PyObj.int a2, PyObj.int a3, PyObj.int a4,
        PyObj.int a5, PyObj.str q] : Except (Err E) (RRefForkData T)) =
      Except.error Err.castError) ∧
    (fromPyTuple T [PyObj.int (T.worker_id_t.max + 1), PyObj.int a1, PyObj.int a2, PyObj.int a3,
        PyObj.int a4, PyObj.int a5, PyObj.str p] : Except (Err E) (RRefForkData T)) =
      Except.error Err.castError ∧
    (Err.castError : Err E) ≠ malformedForkData := by
  have hs : PyStr.ofString s = p := ofString_of_encode p s hp
  refine ⟨⟨⟨⟨a0, h0⟩, ⟨⟨a1, h1⟩, ⟨a2, h2⟩⟩, ⟨⟨a3, h3⟩, ⟨a4, h4⟩⟩, ⟨a5, h5⟩, s⟩, ?_, ?_⟩,
    ⟨⟨⟨a0, h0⟩, ⟨⟨a1, h1⟩, ⟨a2, h2⟩⟩, ⟨⟨a3, h3⟩, ⟨a4, h4⟩⟩, ⟨a5, h5⟩, s⟩, ?_, ?_⟩, ?_, ?_, ?_, ?_⟩
  · exact fromPyTuple_of_casts _ _ _ _ _ _ _ _ _ _ _ _ _ _
      (castInt_of_asLong x0 a0 hx0 h0) (castInt_of_asLong x1 a1 hx1 h1)
      (castInt_of_asLong x2 a2 hx2 h2) (castInt_of_asLong x3 a3 hx3 h3)
      (castInt_of_asLong x4 a4 hx4 h4) (castInt_of_asLong x5 a5 hx5 h5)
      (castString_of_encode p s hp)
  · simp only [toPyTuple, hs]
  · exact fromPyTuple_of_casts _ _ _ _ _ _ _ _ _ _ _ _ _ _
      (castInt_int a0 h0) (castInt_int a1 h1) (castInt_int a2 h2) (castInt_int a3 h3)
      (castInt_int a4 h4) (castInt_int a5 h5) (castString_of_encode p s hp)
  · simp only [toPyTuple, hs]
  · rw [fromPyTuple_seven]
    simp only [castInt_int _ h0, castInt_int _ h1, castInt_int _ h2, castInt_int _ h3,
      castInt_int _ h4, castInt_int _ h5, castString, bind, Except.bind]
  · intro q hq
    rw [fromPyTuple_seven]
    simp only [castInt_int _ h0, castInt_int _ h1, castInt_int _ h2, castInt_int _ h3,
      castInt_int _ h4, castInt_int _ h5, castString, hq, bind, Except.bind]
  · rw [fromPyTuple_seven]
    have hb : T.worker_id_t.max < T.worker_id_t.max + 1 := by omega
    simp only [castInt_int_above _ hb, bind, Except.bind]
  · intro h
    cases h

end wireClaims

/-! ## Lemmas on traces and on the methods of `PyRRef` -/

section methods

variable {T : IdTypes} {σ E V R Ty : Type}

theorem fetches_append (l1 l2 : List (Event T R Ty)) :
    fetches (l1 ++ l2) = fetches l1 + fetches l2 := by
  induction l1 with
  | nil => simp [fetches]
  | cons ev es ih =>
    cases ev <;> simp [fetches, ih]
    omega

theorem localReads_append (l1 l2 : List (Event T R Ty)) :
    localReads (l1 ++ l2) = localReads l1 + localReads l2 := by
  induction l1 with
  | nil => simp [localReads]
  | cons ev es ih =>
    cases ev <;> simp [localReads, ih]
    omega

/-- What a call of a collaborator leaves: its result, its state, one more
entry in the trace. -/
theorem call_eq {α : Type} (ev : Event T R Ty) (f : σ → Except E α × σ) (w : World T σ R Ty) :
    call ev f w =
      (match (f w.state).1 with
        | Except.ok a => Except.ok a
        | Except.error e => Except.error (Err.external e),
       ⟨(f w.state).2, w.trace ++ [ev]⟩) := by
  unfold call
  rcases hf : f w.state with ⟨res, s⟩
  cases res <;> rfl

/-- A user reference: `toHere` is one remote fetch and the conversion of its
value; the exception of the fetch goes to the caller as it is. -/
theorem toHere_user_eq (c : Collab T σ E V R Ty) (self : PyRRef R) (w : World T σ R Ty)
    (h : c.isOwner self.rref_ = false) :
    PyRRef.toHere c self w =
      (match (c.userToHere self.rref_ w.state).1 with
        | Except.ok v => Except.ok (c.toPyObject v)
        | Except.error e => Except.error (Err.external e),
       ⟨(c.userToHere self.rref_ w.state).2, w.trace ++ [Event.toHere self.rref_]⟩) := by
  unfold PyRRef.toHere
  rw [h]
  rcases hf : c.userToHere self.rref_ w.state with ⟨res, s⟩
  cases hp : c.isPyObj self.rref_ <;> cases res <;>
    simp [bind, Run.bind, call, hf, pure]

/-- The calls of `localValue` are local reads and exception checks: it adds no
remote fetch to the trace. -/
theorem localValue_fetches (c : Collab T σ E V R Ty) (self : PyRRef R) (w : World T σ R Ty) :
    fetches (PyRRef.localValue c self w).2.trace = fetches w.trace := by
  unfold PyRRef.localValue
  cases ho : c.isOwner self.rref_
  · simp
  · rcases hg : c.getValue self.rref_ w.state with ⟨res, s⟩
    cases hp : c.isPyObj self.rref_
    · cases res <;> simp [bind, Run.bind, call, hg, pure, fetches_append, fetches]
    · cases res with
      | error e => simp [bind, Run.bind, call, hg, fetches_append, fetches]
      | ok v =>
        rcases hh : c.handleException (c.toPyObject v) s with ⟨res2, s2⟩
        cases res2 <;> simp [bind, Run.bind, call, hg, hh, pure, fetches_append, fetches]

end methods

/-! ## The methods of `PyRRef` -/

section methodClaims

variable {T : IdTypes} {σ E V R Ty : Type}

/-- C4. Non-owner access: on a user reference (`isOwner()` is false)
`localValue()` fails with the error of its check, whose message is the fixed
text and the name of the owner, returns no value and leaves the node as it
was, whatever `isPyObj()` is and whatever the state of the node is; and
conversely, when `localValue()` fails with the error of a check, `isOwner()`
is false. -/
theorem localValue_not_local (c : Collab T σ E V R Ty) (self : PyRRef R) (w : World T σ R Ty) :
    (c.isOwner self.rref_ = false →
      PyRRef.localValue c self w =
        (Except.error (Err.torchCheck (PyRRef.notLocalText ++ (PyRRef.owner c self w).name_)), w) ∧
      ∀ v : PyObj, (PyRRef.localValue c self w).1 ≠ Except.ok v) ∧
    (∀ msg : String, (PyRRef.localValue c self w).1 = Except.error (Err.torchCheck msg) →
      c.isOwner self.rref_ = false) := by
  constructor
  · intro h
    have h1 : PyRRef.localValue c self w =
        (Except.error (Err.torchCheck (PyRRef.notLocalText ++ (PyRRef.owner c self w).name_)), w) := by
      simp [PyRRef.localValue, h]
    refine ⟨h1, ?_⟩
    intro v hv
    rw [h1] at hv
    cases hv
  · intro msg hm
    cases ho : c.isOwner self.rref_
    · rfl
    · exfalso
      unfold PyRRef.localValue at hm
      rw [ho] at hm
      rcases hg : c.getValue self.rref_ w.state with ⟨res, s⟩
      cases hp : c.isPyObj self.rref_
      · rw [hp] at hm
        cases res <;> simp [bind, Run.bind, call, hg, pure] at hm
      · rw [hp] at hm
        cases res with
        | error e => simp [bind, Run.bind, call, hg] at hm
        | ok v =>
          rcases hh : c.handleException (c.toPyObject v) s with ⟨res2, s2⟩
          cases res2 <;> simp [bind, Run.bind, call, hg, hh, pure] at hm

/-- C5. The error of `localValue()` on a user reference names the owner: its
message is the text "Cannot call localValue() on a non-local reference. Call
it on " followed by the name in the worker info that the agent returns for
`rref_->owner()`, which is the worker info that `PyRRef::owner()` returns. -/
theorem localValue_names_owner (c : Collab T σ E V R Ty) (self : PyRRef R) (w : World T σ R Ty)
    (h : c.isOwner self.rref_ = false) :
    (PyRRef.localValue c self w).1 =
      Except.error (Err.torchCheck
        ("Cannot call localValue() on a non-local reference. Call it on " ++
          (c.getWorkerInfo w.state (c.owner self.rref_)).name_)) ∧
    PyRRef.owner c self w = c.getWorkerInfo w.state (c.owner self.rref_) := by
  constructor
  · simp [PyRRef.localValue, h, PyRRef.notLocalText, PyRRef.owner]
  · rfl

/-- C6. The dispatch of `toHere()`: on an owner reference it is `localValue()`
(same result, same node afterwards) and makes no remote fetch; on a user
reference it makes no local read and, when the remote fetch returns the value
`v`, returns the conversion `toPyObject v`, whatever `isPyObj()` is. -/
theorem toHere_dispatch (c : Collab T σ E V R Ty) (self : PyRRef R) (w : World T σ R Ty) :
    (c.isOwner self.rref_ = true →
      PyRRef.toHere c self w = PyRRef.localValue c self w ∧
      fetches (PyRRef.toHere c self w).2.trace = fetches w.trace) ∧
    (c.isOwner self.rref_ = false →
      (∀ (v : V) (s : σ), c.userToHere self.rref_ w.state = (Except.ok v, s) →
        PyRRef.toHere c self w =
          (Except.ok (c.toPyObject v), ⟨s, w.trace ++ [Event.toHere self.rref_]⟩)) ∧
      localReads (PyRRef.toHere c self w).2.trace = localReads w.trace) := by
  constructor
  · intro h
    have h1 : PyRRef.toHere c self w = PyRRef.localValue c self w := by
      simp [PyRRef.toHere, h]
    exact ⟨h1, by rw [h1]; exact localValue_fetches c self w⟩
  · intro h
    constructor
    · intro v s hf
      rw [toHere_user_eq c self w h, hf]
    · rw [toHere_user_eq c self w h]
      simp [localReads_append, localReads]

/-- C7. A failure of the transport is propagated, not retried: on a user
reference, when the remote fetch throws `e`, `toHere()` throws that same `e`,
and the call has made exactly one remote fetch (the trace has one entry more,
the fetch). -/
theorem toHere_propagates (c : Collab T σ E V R Ty) (self : PyRRef R) (w : World T σ R Ty)
    (e : E) (s : σ) (h : c.isOwner self.rref_ = false)
    (hf : c.userToHere self.rref_ w.state = (Except.error e, s)) :
    PyRRef.toHere c self w =
      (Except.error (Err.external e), ⟨s, w.trace ++ [Event.toHere self.rref_]⟩) ∧
    fetches (PyRRef.toHere c self w).2.trace = fetches w.trace + 1 := by
  rw [toHere_user_eq c self w h, hf]
  simp [fetches_append, fetches]

/-- C8. Unpickle materializes, then confirms: when the tuple `t` decodes to
the descriptor `d`, the type of `d.typeStr_` parses to `ty` and
`getOrCreateRRef d ty` returns the reference `r`, then `unpickle t` makes
exactly these calls, in this order: the parse of the type, `getOrCreateRRef d
ty`, and one `notifyOwnerAndParentOfFork` with `d.forkId_`, `d.parent_` and
`r`; the node it leaves is the one the notification leaves; when the
notification returns, `unpickle` returns a `PyRRef` that wraps `r`; and
`d.forkId_` and `d.parent_` are the casts of the elements 3, 4 and 5 of `t`. -/
theorem unpickle_confirms (c : Collab T σ E V R Ty) (t : PyTuple) (w : World T σ R Ty)
    (d : RRefForkData T) (ty : Ty) (r : R) (s1 s2 : σ)
    (hd : (fromPyTuple T t : Except (Err E) (RRefForkData T)) = Except.ok d)
    (hp : c.parseTypeFromStr d.typeStr_ w.state = (Except.ok ty, s1))
    (hg : c.getOrCreateRRef d ty s1 = (Except.ok (some r), s2)) :
    (PyRRef.unpickle c t w).2 =
      ⟨(c.notifyOwnerAndParentOfFork d.forkId_ d.parent_ (some r) s2).2,
        w.trace ++ [Event.parseTypeFromStr d.typeStr_, Event.getOrCreateRRef d ty,
          Event.notifyOwnerAndParentOfFork d.forkId_ d.parent_ (some r)]⟩ ∧
    ((c.notifyOwnerAndParentOfFork d.forkId_ d.parent_ (some r) s2).1 = Except.ok () →
      (PyRRef.unpickle c t w).1 = Except.ok ⟨r⟩) ∧
    (∃ x0 x1 x2 x3 x4 x5 x6, t = [x0, x1, x2, x3, x4, x5, x6] ∧
      (castInt T.worker_id_t x3 : Except (Err E) _) = Except.ok d.forkId_.createdOn_ ∧
      (castInt T.local_id_t x4 : Except (Err E) _) = Except.ok d.forkId_.localId_ ∧
      (castInt T.worker_id_t x5 : Except (Err E) _) = Except.ok d.parent_) := by
  rcases hn : c.notifyOwnerAndParentOfFork d.forkId_ d.parent_ (some r) s2 with ⟨res, s3⟩
  refine ⟨?_, ?_, ?_⟩
  · cases res <;>
      simp [PyRRef.unpickle, bind, Run.bind, liftExcept, hd, call, hp, hg, hn, PyRRef.new]
  · intro hr
    simp only at hr
    subst hr
    simp [PyRRef.unpickle, bind, Run.bind, liftExcept, hd, call, hp, hg, hn, PyRRef.new]
  · obtain ⟨x0, x1, x2, x3, x4, x5, x6, ht, _, _, _, h3, h4, h5, _⟩ := fromPyTuple_ok_inv t d hd
    exact ⟨x0, x1, x2, x3, x4, x5, x6, ht, h3, h4, h5⟩

/-- C10. Unpickle is atomic on bad input: when `fromPyTuple t` fails with
`e`, `unpickle t` fails with that same `e` and leaves the node as it was: the
state is the same and the trace has no new entry, so no type was parsed,
`getOrCreateRRef` was not called and no notification was sent. This is so in
particular for every `t` whose length is not 7, with the error of the size
assertion. -/
theorem unpickle_atomic (c : Collab T σ E V R Ty) (t : PyTuple) (w : World T σ R Ty) :
    (∀ e : Err E, (fromPyTuple T t : Except (Err E) (RRefForkData T)) = Except.error e →
      PyRRef.unpickle c t w = (Except.error e, w)) ∧
    (t.length ≠ 7 → PyRRef.unpickle c t w = (Except.error malformedForkData, w)) := by
  have key : ∀ e : Err E, (fromPyTuple T t : Except (Err E) (RRefForkData T)) = Except.error e →
      PyRRef.unpickle c t w = (Except.error e, w) := by
    intro e he
    simp [PyRRef.unpickle, bind, Run.bind, liftExcept, he]
  refine ⟨key, ?_⟩
  intro hl
  apply key
  simp [fromPyTuple, RFD_TUPLE_SIZE, hl]

end methodClaims

/-! ## The claims on the example node -/

/-- The round trip on the example descriptor, and on the tuple that `pickle` returns
for the user reference of the example node. -/
theorem fromPyTuple_toPyTuple_witness :
    (fromPyTuple torchIdTypes (toPyTuple demoForkData) :
      Except (Err String) (RRefForkData torchIdTypes)) = Except.ok demoForkData ∧
    PyRRef.pickle demoCollab demoUser demoUp = (Except.ok (toPyTuple demoForkData),
      ⟨demoUp.state, [Event.prepareChildFork demoUser.rref_]⟩) ∧
    ∃ d1 : RRefForkData torchIdTypes,
      demoCollab.prepareChildFork demoUser.rref_ demoUp.state = (Except.ok d1, demoUp.state) ∧
      toPyTuple demoForkData = toPyTuple d1 ∧
      (fromPyTuple torchIdTypes (toPyTuple demoForkData) :
        Except (Err String) (RRefForkData torchIdTypes)) = Except.ok d1 :=
  ⟨(fromPyTuple_toPyTuple demoForkData demoCollab demoUser demoUp).1, rfl,
    (fromPyTuple_toPyTuple demoForkData demoCollab demoUser demoUp).2 (toPyTuple demoForkData)
      ⟨demoUp.state, [Event.prepareChildFork demoUser.rref_]⟩ rfl⟩

/-- The tuple of a descriptor with six different integers, element by element;
that tuple decodes to the descriptor, each field from its position, and the
tuple with the integers in the opposite order decodes to the descriptor with
the fields exchanged. -/
theorem toPyTuple_layout_witness :
    toPyTuple demoDistinct = [PyObj.int 10, PyObj.int 11, PyObj.int 12, PyObj.int 13,
      PyObj.int 14, PyObj.int 15, PyObj.str (PyStr.ofString "Tensor")] ∧
    (toPyTuple demoDistinct).length = 7 ∧
    (toPyTuple demoDistinct).get? FORKID_ON_IDX = some (PyObj.int 13) ∧
    (fromPyTuple torchIdTypes [PyObj.int 10, PyObj.int 11, PyObj.int 12, PyObj.int 13,
      PyObj.int 14, PyObj.int 15, PyObj.str (PyStr.ofString "Tensor")] :
      Except (Err String) (RRefForkData torchIdTypes)) = Except.ok demoDistinct ∧
    (fromPyTuple torchIdTypes [PyObj.int 15, PyObj.int 14, PyObj.int 13, PyObj.int 12,
      PyObj.int 11, PyObj.int 10, PyObj.bytes "Tensor"] :
      Except (Err String) (RRefForkData torchIdTypes)) =
      Except.ok ⟨⟨15, by decide⟩, ⟨⟨14, by decide⟩, ⟨13, by decide⟩⟩,
        ⟨⟨12, by decide⟩, ⟨11, by decide⟩⟩, ⟨10, by decide⟩, "Tensor"⟩ :=
  ⟨rfl, (@toPyTuple_layout String torchIdTypes demoDistinct).1,
    (@toPyTuple_layout String torchIdTypes demoDistinct).2.2.2.2.1,
    (@toPyTuple_layout String torchIdTypes demoDistinct).2.2.2.2.2.2.2.2.2.2.1
      (PyObj.int 10) (PyObj.int 11) (PyObj.int 12) (PyObj.int 13) (PyObj.int 14) (PyObj.int 15)
      (PyObj.str (PyStr.ofString "Tensor")) ⟨10, by decide⟩ ⟨11, by decide⟩ ⟨12, by decide⟩
      ⟨13, by decide⟩ ⟨14, by decide⟩ ⟨15, by decide⟩ "Tensor" rfl rfl rfl rfl rfl rfl rfl,
    by decide⟩

/-- Tuples of length 0, 6 and 8 fail with the error of the size assertion, also
when an element would not cast. -/
theorem fromPyTuple_malformed_witness :
    (fromPyTuple torchIdTypes [] : Except (Err String) (RRefForkData torchIdTypes)) =
      Except.error (Err.internalAssert "Pickled RRefForkData must contain 6 numbers.") ∧
    (fromPyTuple torchIdTypes [PyObj.int 0, PyObj.int 0, PyObj.int 1, PyObj.int 1, PyObj.int 1,
      PyObj.int 0] : Except (Err String) (RRefForkData torchIdTypes)) =
      Except.error (Err.internalAssert "Pickled RRefForkData must contain 6 numbers.") ∧
    (fromPyTuple torchIdTypes [PyObj.none, PyObj.int 0, PyObj.int 1, PyObj.int 1, PyObj.int 1,
      PyObj.int 0, PyObj.str (PyStr.ofString "Tensor"), PyObj.str (PyStr.ofString "extra")] :
      Except (Err String) (RRefForkData torchIdTypes)) =
      Except.error (Err.internalAssert "Pickled RRefForkData must contain 6 numbers.") :=
  ⟨(fromPyTuple_malformed [] (by decide)).1,
    (fromPyTuple_malformed [PyObj.int 0, PyObj.int 0, PyObj.int 1, PyObj.int 1, PyObj.int 1,
      PyObj.int 0] (by decide)).1,
    (fromPyTuple_malformed [PyObj.none, PyObj.int 0, PyObj.int 1, PyObj.int 1, PyObj.int 1,
      PyObj.int 0, PyObj.str (PyStr.ofString "Tensor"), PyObj.str (PyStr.ofString "extra")] (by decide)).1⟩

/-- On the example node `localValue` fails on the user reference, naming worker 0,
and returns the value on the owner reference. -/
theorem localValue_not_local_witness :
    demoCollab.isOwner demoUser.rref_ = false ∧
    PyRRef.localValue demoCollab demoUser demoUp =
      (Except.error (Err.torchCheck
        "Cannot call localValue() on a non-local reference. Call it on worker0"), demoUp) ∧
    PyRRef.localValue demoCollab demoOwner demoUp =
      (Except.ok (PyObj.str (PyStr.ofString "hello")),
        ⟨demoUp.state, [Event.getValue demoOwner.rref_, Event.handleException (PyObj.str (PyStr.ofString "hello"))]⟩) :=
  ⟨rfl, ((localValue_not_local demoCollab demoUser demoUp).1 rfl).1, rfl⟩

/-- On the example node, which is worker 1, the error of `localValue` on a
reference owned by worker 0 names worker 0. -/
theorem localValue_names_owner_witness :
    demoCollab.isOwner demoUser.rref_ = false ∧
    demoUp.state.localWorker = 1 ∧
    (PyRRef.owner demoCollab demoUser demoUp).name_ = "worker0" ∧
    (PyRRef.localValue demoCollab demoUser demoUp).1 =
      Except.error (Err.torchCheck
        "Cannot call localValue() on a non-local reference. Call it on worker0") :=
  ⟨rfl, rfl, rfl, (localValue_names_owner demoCollab demoUser demoUp rfl).1⟩

/-- On the example node `toHere` reads the local value of the owner reference and
fetches the value of the user reference. -/
theorem toHere_dispatch_witness :
    PyRRef.toHere demoCollab demoOwner demoUp =
      (Except.ok (PyObj.str (PyStr.ofString "hello")),
        ⟨demoUp.state, [Event.getValue demoOwner.rref_, Event.handleException (PyObj.str (PyStr.ofString "hello"))]⟩) ∧
    PyRRef.toHere demoCollab demoOwner demoUp = PyRRef.localValue demoCollab demoOwner demoUp ∧
    PyRRef.toHere demoCollab demoUser demoUp =
      (Except.ok (PyObj.str (PyStr.ofString "hello")), ⟨demoUp.state, [Event.toHere demoUser.rref_]⟩) :=
  ⟨rfl, ((toHere_dispatch demoCollab demoOwner demoUp).1 rfl).1,
    ((toHere_dispatch demoCollab demoUser demoUp).2 rfl).1 "hello" demoUp.state rfl⟩

/-- On the example node with the owner unreachable, `toHere` throws the exception
of the fetch after one fetch. -/
theorem toHere_propagates_witness :
    demoCollab.isOwner demoUser.rref_ = false ∧
    demoCollab.userToHere demoUser.rref_ demoDown.state =
      (Except.error "transport failure", demoDown.state) ∧
    PyRRef.toHere demoCollab demoUser demoDown =
      (Except.error (Err.external "transport failure"),
        ⟨demoDown.state, [Event.toHere demoUser.rref_]⟩) ∧
    fetches (PyRRef.toHere demoCollab demoUser demoDown).2.trace = 1 :=
  ⟨rfl, rfl, toHere_propagates demoCollab demoUser demoDown "transport failure" demoDown.state
    rfl rfl⟩

/-- On the example node `unpickle` of the example tuple registers the reference,
sends one confirmation and returns the reference. -/
theorem unpickle_confirms_witness :
    (PyRRef.unpickle demoCollab (toPyTuple demoForkData) demoUp).2 =
      ⟨⟨1, true, [demoUser.rref_], [(demoForkData.forkId_, worker0)]⟩,
        [Event.parseTypeFromStr "Tensor", Event.getOrCreateRRef demoForkData "Tensor",
          Event.notifyOwnerAndParentOfFork demoForkData.forkId_ worker0 (some demoUser.rref_)]⟩ ∧
    (PyRRef.unpickle demoCollab (toPyTuple demoForkData) demoUp).1 = Except.ok demoUser :=
  ⟨(unpickle_confirms demoCollab (toPyTuple demoForkData) demoUp demoForkData "Tensor"
      demoUser.rref_ demoUp.state ⟨1, true, [demoUser.rref_], []⟩ rfl rfl rfl).1,
    (unpickle_confirms demoCollab (toPyTuple demoForkData) demoUp demoForkData "Tensor"
      demoUser.rref_ demoUp.state ⟨1, true, [demoUser.rref_], []⟩ rfl rfl rfl).2.1 rfl⟩

/-- The claim C9 as first stated fails on a tuple of seven elements whose six
integers are in range and whose element 6 is a string: the string that is the
lone surrogate `0xD800` cannot be encoded in UTF-8, and the tuple does not
decode. -/
theorem toPyTuple_fromPyTuple_counterexample :
    demoSurrogate = [PyObj.int 0, PyObj.int 0, PyObj.int 1, PyObj.int 1, PyObj.int 1,
      PyObj.int 0, PyObj.str [CodePoint.surrogate 0]] ∧
    demoSurrogate.length = 7 ∧
    (torchIdTypes.worker_id_t.min ≤ 0 ∧ (0 : Int) ≤ torchIdTypes.worker_id_t.max) ∧
    (torchIdTypes.worker_id_t.min ≤ 1 ∧ (1 : Int) ≤ torchIdTypes.worker_id_t.max) ∧
    (torchIdTypes.local_id_t.min ≤ 1 ∧ (1 : Int) ≤ torchIdTypes.local_id_t.max) ∧
    (fromPyTuple torchIdTypes demoSurrogate : Except (Err String) (RRefForkData torchIdTypes)) =
      Except.error Err.castError ∧
    ¬ ∃ d : RRefForkData torchIdTypes,
      (fromPyTuple torchIdTypes demoSurrogate : Except (Err String) (RRefForkData torchIdTypes)) =
        Except.ok d :=
  ⟨rfl, rfl, by decide, by decide, by decide, by decide,
    fun h => h.elim fun d hd =>
      Except.noConfusion ((show (Except.error Err.castError :
        Except (Err String) (RRefForkData torchIdTypes)) = Except.ok d from
          (by decide : (fromPyTuple torchIdTypes demoSurrogate :
            Except (Err String) (RRefForkData torchIdTypes)) =
              Except.error Err.castError).symm.trans hd))⟩

/-- The example tuple decodes and encodes back, also with `True` for the 1 of
element 3, which comes back as 1; with an integer as element 6, with a lone
surrogate as element 6, or with 32768 as element 0, the decoding fails with a
cast error. -/
theorem toPyTuple_fromPyTuple_witness :
    (∃ d : RRefForkData torchIdTypes,
      (fromPyTuple torchIdTypes [PyObj.int 0, PyObj.int 0, PyObj.int 1, PyObj.bool true,
        PyObj.int 1, PyObj.int 0, PyObj.str (PyStr.ofString "Tensor")] :
        Except (Err String) (RRefForkData torchIdTypes)) = Except.ok d ∧
      toPyTuple d = [PyObj.int 0, PyObj.int 0, PyObj.int 1, PyObj.int 1, PyObj.int 1,
        PyObj.int 0, PyObj.str (PyStr.ofString "Tensor")]) ∧
    (∃ d : RRefForkData torchIdTypes,
      (fromPyTuple torchIdTypes [PyObj.int 0, PyObj.int 0, PyObj.int 1, PyObj.int 1, PyObj.int 1,
        PyObj.int 0, PyObj.str (PyStr.ofString "Tensor")] :
        Except (Err String) (RRefForkData torchIdTypes)) = Except.ok d ∧
      toPyTuple d = [PyObj.int 0, PyObj.int 0, PyObj.int 1, PyObj.int 1, PyObj.int 1,
        PyObj.int 0, PyObj.str (PyStr.ofString "Tensor")]) ∧
    (fromPyTuple torchIdTypes [PyObj.int 0, PyObj.int 0, PyObj.int 1, PyObj.int 1, PyObj.int 1,
        PyObj.int 0, PyObj.int 0] : Except (Err String) (RRefForkData torchIdTypes)) =
      Except.error Err.castError ∧
    (fromPyTuple torchIdTypes [PyObj.int 0, PyObj.int 0, PyObj.int 1, PyObj.int 1, PyObj.int 1,
        PyObj.int 0, PyObj.str [CodePoint.surrogate 0]] :
        Except (Err String) (RRefForkData torchIdTypes)) =
      Except.error Err.castError ∧
    (fromPyTuple torchIdTypes [PyObj.int 32768, PyObj.int 0, PyObj.int 1, PyObj.int 1,
        PyObj.int 1, PyObj.int 0, PyObj.str (PyStr.ofString "Tensor")] :
        Except (Err String) (RRefForkData torchIdTypes)) =
      Except.error Err.castError :=
  ⟨(toPyTuple_fromPyTuple (PyObj.int 0) (PyObj.int 0) (PyObj.int 1) (PyObj.bool true)
      (PyObj.int 1) (PyObj.int 0) 0 0 1 1 1 0 (PyStr.ofString "Tensor") "Tensor"
      rfl rfl rfl rfl rfl rfl (by decide) (by decide) (by decide) (by decide) (by decide)
      (by decide) rfl).1,
    (toPyTuple_fromPyTuple (PyObj.int 0) (PyObj.int 0) (PyObj.int 1) (PyObj.bool true)
      (PyObj.int 1) (PyObj.int 0) 0 0 1 1 1 0 (PyStr.ofString "Tensor") "Tensor"
      rfl rfl rfl rfl rfl rfl (by decide) (by decide) (by decide) (by decide) (by decide)
      (by decide) rfl).2.1,
    (toPyTuple_fromPyTuple (PyObj.int 0) (PyObj.int 0) (PyObj.int 1) (PyObj.bool true)
      (PyObj.int 1) (PyObj.int 0) 0 0 1 1 1 0 (PyStr.ofString "Tensor") "Tensor"
      rfl rfl rfl rfl rfl rfl (by decide) (by decide) (by decide) (by decide) (by decide)
      (by decide) rfl).2.2.1,
    (toPyTuple_fromPyTuple (PyObj.int 0) (PyObj.int 0) (PyObj.int 1) (PyObj.bool true)
      (PyObj.int 1) (PyObj.int 0) 0 0 1 1 1 0 (PyStr.ofString "Tensor") "Tensor"
      rfl rfl rfl rfl rfl rfl (by decide) (by decide) (by decide) (by decide) (by decide)
      (by decide) rfl).2.2.2.1 [CodePoint.surrogate 0] rfl,
    (toPyTuple_fromPyTuple (PyObj.int 0) (PyObj.int 0) (PyObj.int 1) (PyObj.bool true)
      (PyObj.int 1) (PyObj.int 0) 0 0 1 1 1 0 (PyStr.ofString "Tensor") "Tensor"
      rfl rfl rfl rfl rfl rfl (by decide) (by decide) (by decide) (by decide) (by decide)
      (by decide) rfl).2.2.2.2.1⟩

/-- On the example node `unpickle` of the empty tuple, and of a tuple with `None`
as element 6, fails and leaves the node as it was. -/
theorem unpickle_atomic_witness :
    PyRRef.unpickle demoCollab [] demoUp = (Except.error malformedForkData, demoUp) ∧
    PyRRef.unpickle demoCollab [PyObj.int 0, PyObj.int 0, PyObj.int 1, PyObj.int 1, PyObj.int 1,
      PyObj.int 0, PyObj.none] demoUp = (Except.error Err.castError, demoUp) :=
  ⟨(unpickle_atomic demoCollab [] demoUp).2 (by decide),
    (unpickle_atomic demoCollab [PyObj.int 0, PyObj.int 0, PyObj.int 1, PyObj.int 1, PyObj.int 1,
      PyObj.int 0, PyObj.none] demoUp).1 Err.castError (by decide)⟩

end Rpc
